import Mathlib

/-!
Verification of the FilterableVirtualSelect combobox component of the
osrs-dps-calc front end, embedded shallowly from the TypeScript sources.

Strings are modelled as `List Char`; JavaScript's `String.prototype.includes`
and `toLowerCase` are embedded as executable functions on character lists.
The component's React state (input value, filtered items, row-height cache,
highlighted index, scroll position) is a record, and each event handler or
effect of the source becomes a state-transition function. The selection
behaviour contributed by the headless combobox dependency (downshift), which
is not part of the shown sources, is modelled from the specification and
marked as such in the doc comments.
-/

set_option autoImplicit false

namespace OsrsDpsCalc

universe u

/-- An entry of the combobox's item list: `{label: string, value: T}`
(`type ComboboxItem = {label: string, value: any}` in the source). -/
structure ComboItem (α : Type u) where
  label : List Char
  value : α
  deriving DecidableEq, Repr

/-- JavaScript `String.prototype.toLowerCase`, restricted to the per-character
lowering that `Char.toLower` provides. -/
def lowerStr (s : List Char) : List Char := s.map Char.toLower

/-- Does `pat` occur at the very start of `hay`? (helper for `includesL`). -/
def hasPrefixL : List Char → List Char → Bool
  | _, [] => true
  | [], _ :: _ => false
  | a :: as, b :: bs => a == b && hasPrefixL as bs

/-- JavaScript `hay.includes(pat)`: contiguous-substring containment. -/
def includesL : List Char → List Char → Bool
  | [], pat => pat.isEmpty
  | a :: as, pat => hasPrefixL (a :: as) pat || includesL as pat

/-- The filter computation of `Combobox` (part_000 lines 79-89):
`newFilteredItems = items`, and when `inputValue` is truthy (non-empty),
`items.filter((v) => v.label.toLowerCase().includes(inputValue.toLowerCase()))`. -/
def filteredView {α : Type u} (items : List (ComboItem α)) (inputValue : List Char) :
    List (ComboItem α) :=
  if inputValue.isEmpty then items
  else items.filter (fun v => includesL (lowerStr v.label) (lowerStr inputValue))

/-! ## Row-height cache and virtualised layout -/

/-- The `rowHeights.current` ref: a map from row index to measured pixel
height. Absent keys read back as `undefined` in the source. -/
def RowCache : Type := Nat → Option Nat

/-- The cache as it is on mount: `useRef({})`, no measurements. -/
def emptyCache : RowCache := fun _ => none

/-- The object-spread update `{...rowHeights.current, [ix]: height}` performed
by `setRowHeight` (part_000 lines 69-72). -/
def cacheInsert (c : RowCache) (ix h : Nat) : RowCache :=
  fun j => if j = ix then some h else c j

/-- `getRowHeight` (part_000 lines 65-67): `rowHeights.current[ix] + 15 || 30`.
A recorded height `h` yields `h + 15` (always nonzero, hence truthy); a
missing entry yields `NaN`, which is falsy, so the default 30 applies. -/
def getRowHeight (c : RowCache) (ix : Nat) : Nat :=
  match c ix with
  | some h => h + 15
  | none => 30

/-- The start offset of row `n` in react-window's variable-size layout: the
sum of `getRowHeight` over all earlier rows. -/
def rowOffset (c : RowCache) : Nat → Nat
  | 0 => 0
  | n + 1 => rowOffset c n + getRowHeight c n

/-- The `height` prop handed to the virtualised `List` (part_000 line 178):
`filteredItems.length < 6 ? filteredItems.length * 35 : 200`. -/
def menuListHeight (n : Nat) : Nat :=
  if n < 6 then n * 35 else 200

/-! ## Component state and event transitions -/

/-- The React state of `Combobox` that the claims are about: the controlled
input text, the items prop, the derived `filteredItems` state, the
`rowHeights` ref, downshift's `highlightedIndex`, the virtualised list's
scroll position (an item index; `scrollToItem(0)` is scroll-to-top), and
downshift's `selectedItem`. -/
structure CState (α : Type u) where
  items : List (ComboItem α)
  inputValue : List Char
  filteredItems : List (ComboItem α)
  rowHeights : RowCache
  highlightedIndex : Nat
  scrollPos : Nat
  selectedItem : Option (ComboItem α)

/-- The `useEffect` at part_000 lines 79-89: recompute `filteredItems` from
`items` and `inputValue`. It touches no other state — in particular it does
not clear `rowHeights`. -/
def filterEffect {α : Type u} (s : CState α) : CState α :=
  { s with filteredItems := filteredView s.items s.inputValue }

/-- downshift's `onInputValueChange` handler (part_000 lines 153-157) followed
by the filter effect the input change triggers: `setInputValue(newValue ||
'')`, `listRef.current?.scrollToItem(0)`, `setHighlightedIndex(0)`. -/
def onInputValueChange {α : Type u} (s : CState α) (newValue : Option (List Char)) :
    CState α :=
  filterEffect
    { s with
      inputValue := newValue.getD []
      scrollPos := 0
      highlightedIndex := 0 }

/-- A change of the `items` prop re-runs the filter effect (its dependency
array is `[inputValue, items]`), but no handler resets the highlighted index
or the scroll position on this path. -/
def onItemsChange {α : Type u} (s : CState α) (newItems : List (ComboItem α)) :
    CState α :=
  filterEffect { s with items := newItems }

/-- `setRowHeight` (part_000 lines 69-72) as it acts on the state: it
invalidates react-window's internal offset cache (`resetAfterIndex(0)`,
transparent here because `rowOffset` recomputes from the cache) and records
the measurement. -/
def setRowHeight {α : Type u} (s : CState α) (ix h : Nat) : CState α :=
  { s with rowHeights := cacheInsert s.rowHeights ix h }

/-- The value-sync `useEffect` at part_000 lines 74-77:
`if (value) setInputValue(value)` — the external value is copied into the
input text only when it is truthy (present and non-empty), after which the
filter effect re-runs. -/
def onValueChange {α : Type u} (s : CState α) (v : Option (List Char)) : CState α :=
  match v with
  | none => s
  | some val => if val.isEmpty then s else filterEffect { s with inputValue := val }

/-! ## Selection commit and highlight movement (downshift behaviour) -/

/-- The behaviour flags of `IComboboxProps` that matter for a selection
commit, plus whether the caller supplied an `onSelectedItemChange` callback. -/
structure CommitConfig where
  hasCallback : Bool
  resetAfterSelect : Bool
  blurAfterSelect : Bool
  deriving DecidableEq, Repr

/-- The observable outcome of a commit: the successor state and the list of
invocations of the caller's selection callback during the commit. -/
structure CommitOutcome (α : Type u) where
  state : CState α
  calls : List (ComboItem α)

/-- Modelled from the spec: the commit transition driven by the downshift
dependency, whose internals are not among the shown sources. Per the spec,
Enter or a click on the highlighted/hovered row while the menu is open with
matches commits the item at `highlightedIndex` of the filtered view: it sets
`selectedItem`, and the source's `onSelectedItemChange` handler (part_000
lines 158-162) then invokes the caller's callback once with the committed
item and, when `resetAfterSelect` is set, clears the input text. When there
is no match at the highlighted index nothing commits. -/
def commitSelection {α : Type u} (cfg : CommitConfig) (s : CState α) :
    CommitOutcome α :=
  if h : s.highlightedIndex < s.filteredItems.length then
    let item := s.filteredItems.get ⟨s.highlightedIndex, h⟩
    let s1 := { s with selectedItem := some item }
    let s2 := if cfg.resetAfterSelect then filterEffect { s1 with inputValue := [] }
              else s1
    { state := s2, calls := if cfg.hasCallback then [item] else [] }
  else
    { state := s, calls := [] }

/-- A keyboard highlight move while the menu is open. -/
inductive ArrowMove where
  | up
  | down
  deriving DecidableEq, Repr

/-- Modelled from the spec: downshift's arrow-key highlight movement while
the menu is open with matches — `highlightedIndex` moves by ±1, clamped to
`[0, len(FilteredView)-1]`, without wraparound. -/
def applyMove {α : Type u} (s : CState α) : ArrowMove → CState α
  | .up => { s with highlightedIndex := s.highlightedIndex - 1 }
  | .down =>
      { s with
        highlightedIndex :=
          if s.highlightedIndex + 1 < s.filteredItems.length then
            s.highlightedIndex + 1
          else s.highlightedIndex }

/-- A sequence of arrow moves applied left to right. -/
def applyMoves {α : Type u} (s : CState α) : List ArrowMove → CState α
  | [] => s
  | m :: ms => applyMoves (applyMove s m) ms

/-! ## Equipment-preset selector (`EquipmentPresets.tsx`) -/

/-- The six values of the `EquipmentPreset` enum. -/
inductive EquipmentPreset where
  | DHAROKS
  | MAX_MELEE
  | MAX_RANGED
  | VERACS
  | VOID_MELEE
  | VOID_RANGED
  deriving DecidableEq, Repr

/-- An entry of `availableEquipment`; only the `id` field is consulted by
`EquipmentPresets`. -/
structure EquipmentItem where
  id : Nat
  deriving DecidableEq, Repr

/-- `findItemById` (EquipmentPresets.tsx line 24):
`availableEquipment.find((eq) => eq.id === id)`. -/
def findItemById (avail : List EquipmentItem) (id : Nat) : Option EquipmentItem :=
  avail.find? (fun eq => eq.id == id)

/-- The `equipment` object literal of a preset. An outer `none` means the key
is absent from the literal; `some none` is an explicit `null` (or a
`findItemById` miss); `some (some it)` is a found item. -/
structure EquipmentSlots where
  head : Option (Option EquipmentItem) := none
  cape : Option (Option EquipmentItem) := none
  neck : Option (Option EquipmentItem) := none
  ammo : Option (Option EquipmentItem) := none
  weapon : Option (Option EquipmentItem) := none
  body : Option (Option EquipmentItem) := none
  shield : Option (Option EquipmentItem) := none
  legs : Option (Option EquipmentItem) := none
  hands : Option (Option EquipmentItem) := none
  feet : Option (Option EquipmentItem) := none
  ring : Option (Option EquipmentItem) := none
  deriving DecidableEq, Repr

/-- Is at least one slot key present in the literal? -/
def hasAnySlot (e : EquipmentSlots) : Bool :=
  e.head.isSome || e.cape.isSome || e.neck.isSome || e.ammo.isSome ||
  e.weapon.isSome || e.body.isSome || e.shield.isSome || e.legs.isSome ||
  e.hands.isSome || e.feet.isSome || e.ring.isSome

/-- The equipment literal each `switch` case of `onSelect` builds
(EquipmentPresets.tsx lines 26-129), with the hardcoded item ids. -/
def presetEquipment (avail : List EquipmentItem) : EquipmentPreset → EquipmentSlots
  | .DHAROKS =>
      { head := some (findItemById avail 4880)
        cape := some (findItemById avail 21295)
        neck := some (findItemById avail 19553)
        ammo := some (findItemById avail 22947)
        weapon := some (findItemById avail 4718)
        body := some (findItemById avail 4892)
        shield := some none
        legs := some (findItemById avail 4898)
        hands := some (findItemById avail 22981)
        feet := some (findItemById avail 13239)
        ring := some (findItemById avail 28307) }
  | .MAX_MELEE =>
      { head := some (findItemById avail 26382)
        cape := some (findItemById avail 21295)
        neck := some (findItemById avail 19553)
        ammo := some (findItemById avail 22947)
        body := some (findItemById avail 26384)
        legs := some (findItemById avail 26386)
        hands := some (findItemById avail 22981)
        feet := some (findItemById avail 13239)
        ring := some (findItemById avail 28307) }
  | .MAX_RANGED =>
      { head := some (findItemById avail 27235)
        cape := some (findItemById avail 22109)
        neck := some (findItemById avail 19547)
        ammo := some (findItemById avail 11212)
        body := some (findItemById avail 27238)
        legs := some (findItemById avail 27241)
        hands := some (findItemById avail 26235)
        feet := some (findItemById avail 13237)
        ring := some (findItemById avail 28310) }
  | .VOID_MELEE =>
      { head := some (findItemById avail 11665)
        cape := some (findItemById avail 21295)
        neck := some (findItemById avail 19553)
        ammo := some (findItemById avail 22947)
        body := some (findItemById avail 13072)
        legs := some (findItemById avail 13073)
        hands := some (findItemById avail 8842)
        feet := some (findItemById avail 13239)
        ring := some (findItemById avail 28307) }
  | .VOID_RANGED =>
      { head := some (findItemById avail 11664)
        cape := some (findItemById avail 22109)
        neck := some (findItemById avail 19547)
        ammo := some (findItemById avail 11212)
        body := some (findItemById avail 13072)
        legs := some (findItemById avail 13073)
        hands := some (findItemById avail 8842)
        feet := some (findItemById avail 13237)
        ring := some (findItemById avail 28310) }
  | .VERACS =>
      { head := some (findItemById avail 4976)
        cape := some (findItemById avail 21295)
        neck := some (findItemById avail 19553)
        ammo := some (findItemById avail 22947)
        weapon := some (findItemById avail 4755)
        body := some (findItemById avail 4988)
        shield := some none
        legs := some (findItemById avail 4994)
        hands := some (findItemById avail 22981)
        feet := some (findItemById avail 13239)
        ring := some (findItemById avail 28307) }

/-- The `newPlayer` partial update: its only possible key is `equipment`. -/
structure PlayerUpdate where
  equipment : Option EquipmentSlots
  deriving DecidableEq, Repr

/-- `Object.keys(newPlayer).length` for the shapes `newPlayer` can take. -/
def keysCount (p : PlayerUpdate) : Nat :=
  match p.equipment with
  | some _ => 1
  | none => 0

/-- The `switch` scrutinee `v?.value`: `undefined` when the selected item is
null/undefined; otherwise the item's value, itself modelled as an
`Option EquipmentPreset` so a runtime value outside the enum falls to the
`default` branch. -/
def scrutineeOf (v : Option (ComboItem (Option EquipmentPreset))) :
    Option EquipmentPreset :=
  match v with
  | none => none
  | some it => it.value

/-- `onSelect` of `EquipmentPresets` (EquipmentPresets.tsx lines 21-134),
returning the list of `store.updatePlayer` invocations it performs:
`newPlayer` starts as `{}`, a matching `switch` case replaces it with
`{equipment: {...}}`, and `updatePlayer` runs only when
`Object.keys(newPlayer).length > 0`. -/
def onSelect (avail : List EquipmentItem)
    (v : Option (ComboItem (Option EquipmentPreset))) : List PlayerUpdate :=
  let newPlayer : PlayerUpdate :=
    match scrutineeOf v with
    | some p => { equipment := some (presetEquipment avail p) }
    | none => { equipment := none }
  if 0 < keysCount newPlayer then [newPlayer] else []

/-! ## Concrete fixtures used by witnesses and counterexamples -/

/-- Fixture item "alpha". -/
def itemA : ComboItem Nat := ⟨"alpha".data, 0⟩

/-- Fixture item "beta". -/
def itemB : ComboItem Nat := ⟨"beta".data, 1⟩

/-- Fixture item "gamma". -/
def itemC : ComboItem Nat := ⟨"gamma".data, 2⟩

/-- A state with a recorded measurement for row 0 and an unfiltered view. -/
def s1 : CState Nat :=
  { items := [itemA, itemB]
    inputValue := []
    filteredItems := [itemA, itemB]
    rowHeights := cacheInsert emptyCache 0 40
    highlightedIndex := 0
    scrollPos := 0
    selectedItem := none }

/-- A state scrolled away from the top with a non-initial highlight. -/
def s2 : CState Nat :=
  { items := [itemA, itemB, itemC]
    inputValue := []
    filteredItems := [itemA, itemB, itemC]
    rowHeights := emptyCache
    highlightedIndex := 2
    scrollPos := 5
    selectedItem := none }

/-- A state whose input text is "abc". -/
def s3 : CState Nat :=
  { items := [itemA]
    inputValue := "abc".data
    filteredItems := []
    rowHeights := emptyCache
    highlightedIndex := 0
    scrollPos := 0
    selectedItem := none }

/-- A selected preset item as the `Select` in `EquipmentPresets` hands it to
`onSelect`. -/
def presetChoice : Option (ComboItem (Option EquipmentPreset)) :=
  some ⟨"Dharoks equipment".data, some EquipmentPreset.DHAROKS⟩

/-! # Theorems -/

theorem includesL_nil_pat (hay : List Char) : includesL hay [] = true := by
  cases hay <;> simp [includesL, hasPrefixL, List.isEmpty]

theorem mem_filteredView_includes {α : Type u} {items : List (ComboItem α)}
    {q : List Char} {it : ComboItem α} (h : it ∈ filteredView items q) :
    includesL (lowerStr it.label) (lowerStr q) = true := by
  unfold filteredView at h
  by_cases hq : q.isEmpty
  · have hq' : q = [] := by
      cases q with
      | nil => rfl
      | cons a as => simp [List.isEmpty] at hq
    subst hq'
    simpa [lowerStr] using includesL_nil_pat (lowerStr it.label)
  · rw [if_neg hq] at h
    exact (List.mem_filter.mp h).2

theorem filteredView_sublist {α : Type u} (items : List (ComboItem α))
    (q : List Char) : (filteredView items q).Sublist items := by
  unfold filteredView
  by_cases hq : q.isEmpty
  · rw [if_pos hq]
  · rw [if_neg hq]
    exact List.filter_sublist items

/-- C1: every element of the filtered view has a label that contains the
query case-insensitively; the filtered view is an order-preserving
subsequence of the item list; and the empty query leaves the list unchanged. -/
theorem filteredView_correct {α : Type u} (items : List (ComboItem α))
    (q : List Char) :
    (∀ it ∈ filteredView items q,
        includesL (lowerStr it.label) (lowerStr q) = true) ∧
    (filteredView items q).Sublist items ∧
    (q = [] → filteredView items q = items) := by
  refine ⟨fun it h => mem_filteredView_includes h, filteredView_sublist items q, ?_⟩
  intro hq
  subst hq
  rfl

/-- Witness for C1 at the spec's own scenario: three weapon labels filtered
by the query "dragon" keep exactly the two Dragon items, in order, and the
empty query returns the list unchanged. -/
theorem filteredView_correct_witness :
    (∀ it ∈ filteredView
        [⟨"Dragon dagger".data, 0⟩, ⟨"Dragon spear".data, 1⟩, ⟨"Rune sword".data, 2⟩]
        "dragon".data,
        includesL (lowerStr it.label) (lowerStr "dragon".data) = true) ∧
    filteredView
        [⟨"Dragon dagger".data, 0⟩, ⟨"Dragon spear".data, 1⟩, ⟨"Rune sword".data, 2⟩]
        [] =
      [⟨"Dragon dagger".data, 0⟩, ⟨"Dragon spear".data, 1⟩, ⟨"Rune sword".data, 2⟩] :=
  ⟨(filteredView_correct
      [⟨"Dragon dagger".data, 0⟩, ⟨"Dragon spear".data, 1⟩, ⟨"Rune sword".data, 2⟩]
      "dragon".data).1,
   (filteredView_correct
      [⟨"Dragon dagger".data, 0⟩, ⟨"Dragon spear".data, 1⟩, ⟨"Rune sword".data, 2⟩]
      []).2.2 rfl⟩

example :
    filteredView
      [⟨"Dragon dagger".data, 0⟩, ⟨"Dragon spear".data, 1⟩, ⟨"Rune sword".data, 2⟩]
      "dragon".data =
    [⟨"Dragon dagger".data, 0⟩, ⟨"Dragon spear".data, 1⟩] := by decide

/-- C2 counterexample: in state `s1`, row 0 carries the recorded measurement
40; a query change to "al" shrinks the filtered view, yet the row-height
cache still holds 40 at index 0 — the cache is not discarded when the
filtered view changes. -/
theorem rowHeights_not_reset_on_filter_change :
    (onInputValueChange s1 (some "al".data)).filteredItems ≠ s1.filteredItems ∧
    (onInputValueChange s1 (some "al".data)).rowHeights 0 = some 40 := by
  constructor
  · decide
  · rfl

/-- C2 (amended): recomputing the filtered view — by a query change or an
item-list change — leaves the row-height cache untouched; the cache is never
discarded wholesale, and `setRowHeight` changes exactly one index. -/
theorem rowHeightCache_persists {α : Type u} (s : CState α)
    (nv : Option (List Char)) (l : List (ComboItem α)) (ix h j : Nat) :
    (onInputValueChange s nv).rowHeights = s.rowHeights ∧
    (onItemsChange s l).rowHeights = s.rowHeights ∧
    (setRowHeight s ix h).rowHeights ix = some h ∧
    (j ≠ ix → (setRowHeight s ix h).rowHeights j = s.rowHeights j) := by
  refine ⟨rfl, rfl, ?_, ?_⟩
  · simp [setRowHeight, cacheInsert]
  · intro hj
    simp [setRowHeight, cacheInsert, hj]

/-- Witness for the amended C2 at state `s1`, recording 40 at index 0 and
reading back index 1. -/
theorem rowHeightCache_persists_witness :
    ((1 : Nat) ≠ 0) ∧ (setRowHeight s1 0 40).rowHeights 1 = s1.rowHeights 1 :=
  ⟨by decide,
   (rowHeightCache_persists s1 none [] 0 40 1).2.2.2 (by decide)⟩

/-- C3: a row with a recorded measurement `h` is laid out with `h + 15`
units, an unmeasured row with the default 30; with 40 recorded for row 2 and
nothing else, row 2 occupies 55 units and row 3 starts at offset
30 + 30 + 55 = 115, not at the all-default 90. -/
theorem getRowHeight_spec (c : RowCache) (ix h : Nat) :
    (c ix = some h → getRowHeight c ix = h + 15) ∧
    (c ix = none → getRowHeight c ix = 30) ∧
    getRowHeight (cacheInsert emptyCache 2 40) 2 = 40 + 15 ∧
    rowOffset (cacheInsert emptyCache 2 40) 3 = 115 := by
  refine ⟨?_, ?_, by decide, by decide⟩
  · intro hc
    simp [getRowHeight, hc]
  · intro hc
    simp [getRowHeight, hc]

/-- Witness for C3: the cache holding only 40 at index 2 satisfies both
hypotheses at suitable indices. -/
theorem getRowHeight_spec_witness :
    (cacheInsert emptyCache 2 40) 2 = some 40 ∧
    getRowHeight (cacheInsert emptyCache 2 40) 2 = 40 + 15 ∧
    (cacheInsert emptyCache 2 40) 0 = none ∧
    getRowHeight (cacheInsert emptyCache 2 40) 0 = 30 :=
  ⟨rfl, (getRowHeight_spec (cacheInsert emptyCache 2 40) 2 40).1 rfl,
   rfl, (getRowHeight_spec (cacheInsert emptyCache 2 40) 0 40).2.1 rfl⟩

/-- C6 counterexample: with one unmeasured match the viewport is 35 units
but the single row is laid out with 30, so the viewport does not "exactly
fit" the rows; and with two rows measured at 40 the content (110 units)
exceeds the 70-unit viewport, so small result sets can still scroll. -/
theorem menuListHeight_not_exact_fit :
    ¬ (menuListHeight 1 = rowOffset emptyCache 1) ∧
    menuListHeight 2 < rowOffset (cacheInsert (cacheInsert emptyCache 0 40) 1 40) 2 := by
  constructor
  · decide
  · decide

/-- C6 (amended): below 6 matches the viewport height is the fixed estimate
of 35 units per row (`n * 35`), which need not equal the summed row heights;
at 6 or more matches it is exactly 200. -/
theorem menuListHeight_policy (n : Nat) :
    (n < 6 → menuListHeight n = n * 35) ∧
    (6 ≤ n → menuListHeight n = 200) := by
  constructor
  · intro h
    simp [menuListHeight, h]
  · intro h
    simp [menuListHeight, Nat.not_lt.mpr h]

/-- Witness for the amended C6 at 3 and at 10 matches. -/
theorem menuListHeight_policy_witness :
    menuListHeight 3 = 3 * 35 ∧ menuListHeight 10 = 200 :=
  ⟨(menuListHeight_policy 3).1 (by decide),
   (menuListHeight_policy 10).2 (by decide)⟩

/-- C7 counterexample: from state `s2` (highlight 2, scroll 5), shrinking the
`items` prop recomputes the filtered view, yet neither the highlighted index
nor the scroll position is reset. -/
theorem itemsChange_does_not_reset :
    (onItemsChange s2 [itemA, itemB]).filteredItems ≠ s2.filteredItems ∧
    ¬ ((onItemsChange s2 [itemA, itemB]).highlightedIndex = 0 ∧
       (onItemsChange s2 [itemA, itemB]).scrollPos = 0) := by
  constructor
  · decide
  · decide

/-- C7 (amended): a recomputation triggered by a query change resets the
highlighted index and the scroll position to 0; a recomputation triggered by
an item-list change recomputes the filtered view but leaves both untouched. -/
theorem filter_recompute_reset_policy {α : Type u} (s : CState α)
    (nv : Option (List Char)) (l : List (ComboItem α)) :
    (onInputValueChange s nv).highlightedIndex = 0 ∧
    (onInputValueChange s nv).scrollPos = 0 ∧
    (onInputValueChange s nv).filteredItems = filteredView s.items (nv.getD []) ∧
    (onItemsChange s l).highlightedIndex = s.highlightedIndex ∧
    (onItemsChange s l).scrollPos = s.scrollPos ∧
    (onItemsChange s l).filteredItems = filteredView l s.inputValue :=
  ⟨rfl, rfl, rfl, rfl, rfl, rfl⟩

/-- C9 counterexample: state `s3` shows "abc"; the caller changes the `value`
prop to the empty string, but the internal text remains "abc" — the sync is
skipped for falsy values. -/
theorem valueSync_skips_empty :
    ¬ ((onValueChange s3 (some [])).inputValue = []) := by
  decide

/-- C9 (amended): a change of the caller-supplied `value` prop updates the
internal input text only when the new value is present and non-empty; an
empty or absent value leaves the internal text unchanged. -/
theorem valueSync_truthy_only {α : Type u} (s : CState α) (v : List Char) :
    (v ≠ [] → (onValueChange s (some v)).inputValue = v) ∧
    (onValueChange s (some [])).inputValue = s.inputValue ∧
    (onValueChange s none).inputValue = s.inputValue := by
  refine ⟨?_, rfl, rfl⟩
  intro hv
  cases v with
  | nil => exact absurd rfl hv
  | cons a as => rfl

/-- Witness for the amended C9: syncing "x" into state `s3` replaces "abc". -/
theorem valueSync_truthy_only_witness :
    ("x".data ≠ []) ∧ (onValueChange s3 (some "x".data)).inputValue = "x".data :=
  ⟨by decide, (valueSync_truthy_only s3 "x".data).1 (by decide)⟩

/-- C4: when the open menu has a match at the highlighted index and the
caller supplied a selection callback, a commit invokes the callback exactly
once, with exactly the item at the highlighted index of the filtered view. -/
theorem commit_calls_once {α : Type u} (cfg : CommitConfig) (s : CState α)
    (h : s.highlightedIndex < s.filteredItems.length)
    (hcb : cfg.hasCallback = true) :
    (commitSelection cfg s).calls = [s.filteredItems.get ⟨s.highlightedIndex, h⟩] := by
  simp [commitSelection, h, hcb]

/-- Witness for C4: committing from state `s2` (highlight 2 of three
matches) calls the callback once with `itemC`. -/
theorem commit_calls_once_witness :
    s2.highlightedIndex < s2.filteredItems.length ∧
    (commitSelection ⟨true, false, false⟩ s2).calls = [itemC] := by
  refine ⟨by decide, ?_⟩
  rw [commit_calls_once ⟨true, false, false⟩ s2 (by decide) rfl]
  decide

/-- C5: committing with `resetAfterSelect` set leaves the input text empty
and `selectedItem` equal to the chosen item. -/
theorem commit_reset_clears_input {α : Type u} (cfg : CommitConfig) (s : CState α)
    (h : s.highlightedIndex < s.filteredItems.length)
    (hr : cfg.resetAfterSelect = true) :
    (commitSelection cfg s).state.inputValue = [] ∧
    (commitSelection cfg s).state.selectedItem =
      some (s.filteredItems.get ⟨s.highlightedIndex, h⟩) := by
  constructor
  · simp [commitSelection, h, hr, filterEffect]
  · simp [commitSelection, h, hr, filterEffect]

/-- Witness for C5: committing from `s2` with `resetAfterSelect` clears the
text and selects `itemC`. -/
theorem commit_reset_clears_input_witness :
    s2.highlightedIndex < s2.filteredItems.length ∧
    (commitSelection ⟨true, true, false⟩ s2).state.inputValue = [] ∧
    (commitSelection ⟨true, true, false⟩ s2).state.selectedItem = some itemC := by
  have hlt : s2.highlightedIndex < s2.filteredItems.length := by decide
  have h2 := commit_reset_clears_input ⟨true, true, false⟩ s2 hlt rfl
  refine ⟨hlt, h2.1, ?_⟩
  rw [h2.2]
  rfl

theorem applyMove_filteredItems {α : Type u} (s : CState α) (m : ArrowMove) :
    (applyMove s m).filteredItems = s.filteredItems := by
  cases m <;> rfl

theorem applyMove_lt {α : Type u} (s : CState α) (m : ArrowMove)
    (h : s.highlightedIndex < s.filteredItems.length) :
    (applyMove s m).highlightedIndex < s.filteredItems.length := by
  cases m with
  | up =>
      dsimp [applyMove]
      omega
  | down =>
      dsimp [applyMove]
      split
      · assumption
      · exact h

theorem applyMoves_filteredItems {α : Type u} (s : CState α) (ms : List ArrowMove) :
    (applyMoves s ms).filteredItems = s.filteredItems := by
  induction ms generalizing s with
  | nil => rfl
  | cons m ms ih =>
      rw [show applyMoves s (m :: ms) = applyMoves (applyMove s m) ms from rfl]
      rw [ih (applyMove s m), applyMove_filteredItems]

theorem applyMoves_lt {α : Type u} (s : CState α) (ms : List ArrowMove)
    (h : s.highlightedIndex < s.filteredItems.length) :
    (applyMoves s ms).highlightedIndex < (applyMoves s ms).filteredItems.length := by
  induction ms generalizing s with
  | nil => exact h
  | cons m ms ih =>
      exact ih (applyMove s m)
        (by rw [applyMove_filteredItems]; exact applyMove_lt s m h)

/-- C8: starting from a valid highlight, any sequence of arrow moves keeps
the highlighted index inside `[0, len(FilteredView)-1]` (the moves leave the
filtered view itself unchanged), and arrow-up at index 0 and arrow-down at
the last index are no-ops. -/
theorem arrowMoves_clamped {α : Type u} (s : CState α) (ms : List ArrowMove)
    (h : s.highlightedIndex < s.filteredItems.length) :
    (applyMoves s ms).highlightedIndex < (applyMoves s ms).filteredItems.length ∧
    (applyMoves s ms).filteredItems = s.filteredItems ∧
    (s.highlightedIndex = 0 → applyMove s ArrowMove.up = s) ∧
    (s.highlightedIndex = s.filteredItems.length - 1 →
        applyMove s ArrowMove.down = s) := by
  refine ⟨applyMoves_lt s ms h, applyMoves_filteredItems s ms, ?_, ?_⟩
  · intro h0
    show { s with highlightedIndex := s.highlightedIndex - 1 } = s
    have hsub : s.highlightedIndex - 1 = s.highlightedIndex := by omega
    rw [hsub]
  · intro hl
    have hcond : ¬ (s.highlightedIndex + 1 < s.filteredItems.length) := by omega
    show { s with
            highlightedIndex :=
              if s.highlightedIndex + 1 < s.filteredItems.length then
                s.highlightedIndex + 1
              else s.highlightedIndex } = s
    rw [if_neg hcond]

/-- Witness for C8: from `s2` (highlight 2 of 3), one down then three ups
stay in range. -/
theorem arrowMoves_clamped_witness :
    s2.highlightedIndex < s2.filteredItems.length ∧
    (applyMoves s2 [ArrowMove.down, ArrowMove.up, ArrowMove.up, ArrowMove.up]).highlightedIndex <
      (applyMoves s2 [ArrowMove.down, ArrowMove.up, ArrowMove.up, ArrowMove.up]).filteredItems.length :=
  ⟨by decide,
   (arrowMoves_clamped s2 [ArrowMove.down, ArrowMove.up, ArrowMove.up, ArrowMove.up]
      (by decide)).1⟩

/-- C10: when the selected item is null/undefined or its value is not one of
the six presets, `onSelect` performs no `updatePlayer` call; otherwise it
performs exactly one call, whose `equipment` update has at least one slot. -/
theorem onSelect_frame (avail : List EquipmentItem)
    (v : Option (ComboItem (Option EquipmentPreset))) :
    (scrutineeOf v = none → onSelect avail v = []) ∧
    (∀ p, scrutineeOf v = some p →
        onSelect avail v = [{ equipment := some (presetEquipment avail p) }] ∧
        hasAnySlot (presetEquipment avail p) = true) := by
  constructor
  · intro h
    simp [onSelect, h, keysCount]
  · intro p h
    constructor
    · simp [onSelect, h, keysCount]
    · cases p <;> simp [presetEquipment, hasAnySlot]

/-- Witness for C10: an absent selection triggers no store update, while the
Dharok preset (even against an empty equipment database) triggers exactly
one update with a populated equipment literal. -/
theorem onSelect_frame_witness :
    (scrutineeOf (none : Option (ComboItem (Option EquipmentPreset))) = none ∧
     onSelect [] none = []) ∧
    (scrutineeOf presetChoice = some EquipmentPreset.DHAROKS ∧
     onSelect [] presetChoice =
       [{ equipment := some (presetEquipment [] EquipmentPreset.DHAROKS) }] ∧
     hasAnySlot (presetEquipment [] EquipmentPreset.DHAROKS) = true) :=
  ⟨⟨rfl, (onSelect_frame [] none).1 rfl⟩,
   ⟨rfl,
    ((onSelect_frame [] presetChoice).2 EquipmentPreset.DHAROKS rfl).1,
    ((onSelect_frame [] presetChoice).2 EquipmentPreset.DHAROKS rfl).2⟩⟩

end OsrsDpsCalc
